import Mathlib

/-!
Verification of the surface-code gate-counting scheme of
`qualtran/resource_counting/_surface_code_counts.py`: the cost-value type
`DetailedGateCounts` with its addition, scalar multiplication and rendering,
and the leaf-classification / recursive-fold logic of
`SurfaceCodeGatesCost.compute`.

Symbolic counts (`SymbolicInt` in the source: a concrete integer or a sympy
expression) are embedded in canonical (fully simplified) form as a
non-negative constant plus a formal multiset of symbol occurrences, which is
exactly the shape sympy keeps linear combinations of symbols in after its
automatic simplification.  Scalar multipliers (callee multiplicities and the
scalars of `__mul__`/`__rmul__`) are embedded as concrete non-negative
integers.
-/

namespace Qualtran

/-- Canonical-form symbolic non-negative count: `const` plus one occurrence of
a symbol name per element of `syms` (so coefficient `k` of a symbol is `k`
copies of its name).  This embeds the `SymbolicInt` values handled by this
module. -/
structure SymbolicInt where
  const : Nat
  syms : Multiset String
deriving DecidableEq

/-- A concrete integer count. -/
def SymbolicInt.nat (n : Nat) : SymbolicInt := ⟨n, 0⟩

/-- A single sympy symbol. -/
def SymbolicInt.sym (s : String) : SymbolicInt := ⟨0, {s}⟩

/-- Addition of symbolic counts, as sympy `+` produces in canonical form. -/
def SymbolicInt.add (a b : SymbolicInt) : SymbolicInt :=
  ⟨a.const + b.const, a.syms + b.syms⟩

/-- Scaling by a concrete non-negative integer, as sympy `k * v` produces. -/
def SymbolicInt.scale (k : Nat) (v : SymbolicInt) : SymbolicInt :=
  ⟨k * v.const, k • v.syms⟩

instance : AddCommMonoid SymbolicInt where
  add := SymbolicInt.add
  zero := SymbolicInt.nat 0
  add_assoc a b c := by
    simp only [HAdd.hAdd, Add.add, SymbolicInt.add, SymbolicInt.mk.injEq]
    exact ⟨Nat.add_assoc .., add_assoc ..⟩
  zero_add a := by
    obtain ⟨c, s⟩ := a
    simp only [HAdd.hAdd, Add.add, SymbolicInt.add, SymbolicInt.nat, SymbolicInt.mk.injEq]
    exact ⟨Nat.zero_add _, zero_add _⟩
  add_comm a b := by
    simp only [HAdd.hAdd, Add.add, SymbolicInt.add, SymbolicInt.mk.injEq]
    exact ⟨Nat.add_comm .., add_comm ..⟩
  add_zero a := by
    obtain ⟨c, s⟩ := a
    simp only [HAdd.hAdd, Add.add, SymbolicInt.add, SymbolicInt.nat, SymbolicInt.mk.injEq]
    exact ⟨Nat.add_zero _, add_zero _⟩
  nsmul k v := SymbolicInt.scale k v
  nsmul_zero v := by
    show SymbolicInt.scale 0 v = SymbolicInt.nat 0
    simp only [SymbolicInt.scale, SymbolicInt.nat, SymbolicInt.mk.injEq]
    exact ⟨Nat.zero_mul _, zero_nsmul _⟩
  nsmul_succ k v := by
    simp only [SymbolicInt.scale, HAdd.hAdd, Add.add, SymbolicInt.add, SymbolicInt.mk.injEq]
    exact ⟨Nat.succ_mul .., succ_nsmul ..⟩

theorem SymbolicInt.add_def (a b : SymbolicInt) :
    a + b = ⟨a.const + b.const, a.syms + b.syms⟩ := rfl

theorem SymbolicInt.zero_def : (0 : SymbolicInt) = ⟨0, 0⟩ := rfl

theorem SymbolicInt.smul_def (k : Nat) (v : SymbolicInt) :
    k • v = SymbolicInt.scale k v := rfl

theorem SymbolicInt.scaleZero (v : SymbolicInt) : SymbolicInt.scale 0 v = 0 := by
  rw [← SymbolicInt.smul_def]
  exact zero_nsmul v

theorem SymbolicInt.scaleOne (v : SymbolicInt) : SymbolicInt.scale 1 v = v := by
  rw [← SymbolicInt.smul_def]
  exact one_nsmul v

theorem SymbolicInt.scaleAddScalar (k1 k2 : Nat) (v : SymbolicInt) :
    SymbolicInt.scale (k1 + k2) v = SymbolicInt.scale k1 v + SymbolicInt.scale k2 v := by
  rw [← SymbolicInt.smul_def, ← SymbolicInt.smul_def, ← SymbolicInt.smul_def]
  exact add_nsmul v k1 k2

/-- Truthiness of a canonical sympy value, as `sympy.sympify` followed by a
truth test sees it in `DetailedGateCounts.asdict`: false exactly for the
(possibly symbolic) expression that simplifies to the literal zero. -/
def SymbolicInt.is_nonzero (v : SymbolicInt) : Bool :=
  !(v.const == 0 && decide (v.syms = 0))

/-- String form of a canonical sympy value (`str(v)`): terms in sympy's
sorted order, symbol coefficients shown as `k*name`, the constant last. -/
def SymbolicInt.render (v : SymbolicInt) : String :=
  let names := (v.syms.sort (· ≤ ·)).dedup
  let terms := names.map (fun s =>
    let c := v.syms.count s
    if c = 1 then s else toString c ++ "*" ++ s)
  let terms := if v.const = 0 then terms else terms ++ [toString v.const]
  if terms.isEmpty then "0" else " + ".intercalate terms

/-- The cost-value type of the surface-code scheme: counts of the typical
target gates in a compilation (`DetailedGateCounts` in the source, thirteen
fields in declaration order, each defaulting to zero). -/
structure DetailedGateCounts where
  t : SymbolicInt := 0
  toffoli : SymbolicInt := 0
  cswap : SymbolicInt := 0
  and_bloq : SymbolicInt := 0
  rotation : SymbolicInt := 0
  hadamard : SymbolicInt := 0
  s_gate : SymbolicInt := 0
  cnot : SymbolicInt := 0
  arbitrary_1q_clifford : SymbolicInt := 0
  arbitrary_2q_clifford : SymbolicInt := 0
  multi_control_pauli_count : SymbolicInt := 0
  multi_control_pauli_total_targets : SymbolicInt := 0
  measurement_total_qubits : SymbolicInt := 0
deriving DecidableEq

/-- Fieldwise sum, the body of `DetailedGateCounts.__add__` once the operand
has passed its type check. -/
def DetailedGateCounts.add (self other : DetailedGateCounts) : DetailedGateCounts :=
  ⟨self.t + other.t, self.toffoli + other.toffoli, self.cswap + other.cswap,
   self.and_bloq + other.and_bloq, self.rotation + other.rotation,
   self.hadamard + other.hadamard, self.s_gate + other.s_gate,
   self.cnot + other.cnot,
   self.arbitrary_1q_clifford + other.arbitrary_1q_clifford,
   self.arbitrary_2q_clifford + other.arbitrary_2q_clifford,
   self.multi_control_pauli_count + other.multi_control_pauli_count,
   self.multi_control_pauli_total_targets + other.multi_control_pauli_total_targets,
   self.measurement_total_qubits + other.measurement_total_qubits⟩

/-- A dynamically typed right operand of `+`, as Python passes it to
`DetailedGateCounts.__add__`: either a `DetailedGateCounts` or some other
object (identified here by its repr). -/
inductive PyObj where
| gc : DetailedGateCounts → PyObj
| raw : String → PyObj

/-- The whole of `DetailedGateCounts.__add__`: a `TypeError` for any right
operand that is not a `DetailedGateCounts`, the fieldwise sum otherwise. -/
def DetailedGateCounts.pyAdd (self : DetailedGateCounts) (other : PyObj) :
    Except String DetailedGateCounts :=
  match other with
  | PyObj.gc g => Except.ok (self.add g)
  | PyObj.raw _ =>
    Except.error ("Can only add other DetailedGateCounts objects")

/-- Scalar multiplication `DetailedGateCounts.__mul__`: every field is
multiplied by `other` (on the left, as the source writes `other * self.t`). -/
def DetailedGateCounts.mul (self : DetailedGateCounts) (other : Nat) : DetailedGateCounts :=
  ⟨SymbolicInt.scale other self.t, SymbolicInt.scale other self.toffoli,
   SymbolicInt.scale other self.cswap, SymbolicInt.scale other self.and_bloq,
   SymbolicInt.scale other self.rotation, SymbolicInt.scale other self.hadamard,
   SymbolicInt.scale other self.s_gate, SymbolicInt.scale other self.cnot,
   SymbolicInt.scale other self.arbitrary_1q_clifford,
   SymbolicInt.scale other self.arbitrary_2q_clifford,
   SymbolicInt.scale other self.multi_control_pauli_count,
   SymbolicInt.scale other self.multi_control_pauli_total_targets,
   SymbolicInt.scale other self.measurement_total_qubits⟩

/-- Reflected scalar multiplication `DetailedGateCounts.__rmul__`, which
delegates to `__mul__`. -/
def DetailedGateCounts.rmul (other : Nat) (self : DetailedGateCounts) : DetailedGateCounts :=
  self.mul other

/-- The field (name, value) pairs in declaration order, as `attrs.asdict`
produces them for `DetailedGateCounts.asdict` before its non-zero filter. -/
def DetailedGateCounts.asdictAll (g : DetailedGateCounts) : List (String × SymbolicInt) :=
  [("t", g.t), ("toffoli", g.toffoli), ("cswap", g.cswap),
   ("and_bloq", g.and_bloq), ("rotation", g.rotation), ("hadamard", g.hadamard),
   ("s_gate", g.s_gate), ("cnot", g.cnot),
   ("arbitrary_1q_clifford", g.arbitrary_1q_clifford),
   ("arbitrary_2q_clifford", g.arbitrary_2q_clifford),
   ("multi_control_pauli_count", g.multi_control_pauli_count),
   ("multi_control_pauli_total_targets", g.multi_control_pauli_total_targets),
   ("measurement_total_qubits", g.measurement_total_qubits)]

/-- The method `DetailedGateCounts.asdict`: the fields in declaration order,
keeping exactly those whose value `sympy.sympify` does not recognize as
zero. -/
def DetailedGateCounts.asdict (g : DetailedGateCounts) : List (String × SymbolicInt) :=
  g.asdictAll.filter (fun kv => kv.2.is_nonzero)

/-- The method `DetailedGateCounts.__str__`: the non-zero fields rendered as
"name: value" and comma-joined, or "-" when there is none. -/
def DetailedGateCounts.str (g : DetailedGateCounts) : String :=
  let strs := g.asdict.map (fun kv => kv.1 ++ ": " ++ kv.2.render)
  if !strs.isEmpty then ", ".intercalate strs else "-"

/-- The method `SurfaceCodeGatesCost.zero`: the all-zero cost value. -/
def SurfaceCodeGatesCost.zero : DetailedGateCounts := {}

/-- Modelled from the spec: the attributes of an opaque computational unit
that the classification rules of `SurfaceCodeGatesCost.compute` read.  The
classification predicates (`bloq_is_t_like`, `bloq_is_rotation`,
`bloq_is_state_or_effect`), the concrete gate classes checked by
`isinstance` (`Hadamard`, `SGate`, `Toffoli`, `Measure`, `CNOT`, `And`,
`TwoBitCSwap`, `MultiTargetCNOT`, `ArbitraryClifford`, `_BookkeepingBloq`,
`GlobalPhase`, `Identity`) and the declared numeric attributes
(`MultiTargetCNOT.bitsize`, `ArbitraryClifford.n`, `And.uncompute`) are
external collaborators of this source file, so each is embedded as a
declared attribute of the unit, per the spec's interface for unit identity
and attribute accessors. -/
structure BloqAttrs where
  is_t_like : Bool := false
  is_hadamard : Bool := false
  is_s_gate : Bool := false
  is_toffoli : Bool := false
  is_measure : Bool := false
  is_cnot : Bool := false
  is_and : Bool := false
  and_uncompute : Bool := false
  is_two_bit_cswap : Bool := false
  is_multi_target_cnot : Bool := false
  bitsize : SymbolicInt := 0
  is_arbitrary_clifford : Bool := false
  n : Nat := 0
  is_state_or_effect : Bool := false
  is_bookkeeping : Bool := false
  is_global_phase : Bool := false
  is_identity : Bool := false
  is_rotation : Bool := false

/-- Modelled from the spec: a computational unit (bloq) carries its declared
attributes and the outcome of one level of structural decomposition —
`none` when decomposition is unavailable (`DecompositionUnavailable`), and
otherwise the (callee, multiplicity) pairs.  Multiplicities are embedded as
concrete non-negative integers. -/
inductive Bloq where
| mk : BloqAttrs → Option (List (Bloq × Nat)) → Bloq

/-- The declared attributes of a bloq. -/
def Bloq.attrs : Bloq → BloqAttrs
| Bloq.mk a _ => a

/-- The one-level decomposition of a bloq, when available. -/
def Bloq.callees : Bloq → Option (List (Bloq × Nat))
| Bloq.mk _ c => c

/-- Modelled from the spec: the callee enumerator
`get_bloq_callee_counts(bloq, ignore_decomp_failure)` of `_call_graph.py`
(outside this source file).  It returns the (callee, multiplicity) pairs;
an unavailable decomposition degrades to an empty list in lenient mode and
propagates (here: `none`) in strict mode. -/
def get_bloq_callee_counts (bloq : Bloq) (ignore_decomp_failure : Bool) :
    Option (List (Bloq × Nat)) :=
  match bloq.callees with
  | some cs => some cs
  | none => if ignore_decomp_failure then some [] else none

/-- The method `SurfaceCodeGatesCost.compute`: first-match-wins leaf
classification in source order, then the recursive case folding the callee
costs; the strict-mode enumeration failure propagates as `none`. -/
def SurfaceCodeGatesCost.compute (bloq : Bloq)
    (get_callee_cost : Bloq → DetailedGateCounts) : Option DetailedGateCounts :=
  if bloq.attrs.is_t_like then some { t := SymbolicInt.nat 1 }
  else if bloq.attrs.is_hadamard then some { hadamard := SymbolicInt.nat 1 }
  else if bloq.attrs.is_s_gate then some { s_gate := SymbolicInt.nat 1 }
  else if bloq.attrs.is_toffoli then some { toffoli := SymbolicInt.nat 1 }
  else if bloq.attrs.is_measure then some { measurement_total_qubits := SymbolicInt.nat 1 }
  else if bloq.attrs.is_cnot then some { cnot := SymbolicInt.nat 1 }
  else if bloq.attrs.is_and then some { and_bloq := SymbolicInt.nat 1 }
  else if bloq.attrs.is_two_bit_cswap then some { cswap := SymbolicInt.nat 1 }
  else if bloq.attrs.is_multi_target_cnot then
    some { multi_control_pauli_count := SymbolicInt.nat 1,
           multi_control_pauli_total_targets := bloq.attrs.bitsize }
  else if bloq.attrs.is_arbitrary_clifford && bloq.attrs.n == 1 then
    some { arbitrary_1q_clifford := SymbolicInt.nat 1 }
  else if bloq.attrs.is_arbitrary_clifford && bloq.attrs.n == 2 then
    some { arbitrary_2q_clifford := SymbolicInt.nat 1 }
  else if bloq.attrs.is_state_or_effect then some {}
  else if bloq.attrs.is_bookkeeping || bloq.attrs.is_global_phase
      || bloq.attrs.is_identity then some {}
  else if bloq.attrs.is_rotation then some { rotation := SymbolicInt.nat 1 }
  else
    match get_bloq_callee_counts bloq false with
    | none => none
    | some callees =>
      some (callees.foldl
        (fun totals pc => totals.add (DetailedGateCounts.rmul pc.2 (get_callee_cost pc.1)))
        {})

/-- Whether no leaf-classification rule of `SurfaceCodeGatesCost.compute`
matches the bloq, so that control reaches the recursive case: every
predicate tested by the rules is false, counting the arbitrary-clifford
rule as matching only at arity 1 or 2. -/
def noLeafRuleMatches (b : Bloq) : Bool :=
  !b.attrs.is_t_like && !b.attrs.is_hadamard && !b.attrs.is_s_gate &&
  !b.attrs.is_toffoli && !b.attrs.is_measure && !b.attrs.is_cnot &&
  !b.attrs.is_and && !b.attrs.is_two_bit_cswap && !b.attrs.is_multi_target_cnot &&
  !(b.attrs.is_arbitrary_clifford && (b.attrs.n == 1 || b.attrs.n == 2)) &&
  !b.attrs.is_state_or_effect && !b.attrs.is_bookkeeping &&
  !b.attrs.is_global_phase && !b.attrs.is_identity && !b.attrs.is_rotation

/-- A leaf T-like bloq, used as a concrete callee. -/
def tGateBloq : Bloq := Bloq.mk { is_t_like := true } (some [])

/-- A callee-cost oracle assigning every callee one T gate. -/
def tCostOracle : Bloq → DetailedGateCounts := fun _ => { t := SymbolicInt.nat 1 }

/-- A bloq matching no classification rule, decomposing into two T gates
with multiplicity 3 and 4. -/
def foldExampleBloq : Bloq := Bloq.mk {} (some [(tGateBloq, 3), (tGateBloq, 4)])

/-- A bloq matching no classification rule whose decomposition is empty. -/
def emptyDecompBloq : Bloq := Bloq.mk {} (some [])

theorem compute_of_no_leaf_match (b : Bloq) (g : Bloq → DetailedGateCounts)
    (h : noLeafRuleMatches b = true) :
    SurfaceCodeGatesCost.compute b g =
      (get_bloq_callee_counts b false).map
        (fun cs => cs.foldl
          (fun totals pc => totals.add (DetailedGateCounts.rmul pc.2 (g pc.1)))
          SurfaceCodeGatesCost.zero) := by
  simp only [noLeafRuleMatches, Bool.and_eq_true, Bool.not_eq_true', and_assoc] at h
  obtain ⟨ht, hh, hs, htof, hm, hc, ha, hcs, hmt, hcl, hse, hbk, hgp, hid, hrot⟩ := h
  have h1 : (b.attrs.is_arbitrary_clifford && b.attrs.n == 1) = false := by
    rcases Bool.eq_false_or_eq_true b.attrs.is_arbitrary_clifford with hac | hac
    · rw [hac] at hcl ⊢
      simp only [Bool.true_and] at hcl ⊢
      exact (Bool.or_eq_false_iff.mp hcl).1
    · simp [hac]
  have h2 : (b.attrs.is_arbitrary_clifford && b.attrs.n == 2) = false := by
    rcases Bool.eq_false_or_eq_true b.attrs.is_arbitrary_clifford with hac | hac
    · rw [hac] at hcl ⊢
      simp only [Bool.true_and] at hcl ⊢
      exact (Bool.or_eq_false_iff.mp hcl).2
    · simp [hac]
  rw [SurfaceCodeGatesCost.compute]
  simp only [ht, hh, hs, htof, hm, hc, ha, hcs, hmt, h1, h2, hse, hbk, hgp, hid, hrot]
  simp only [Bool.false_eq_true, if_false, Bool.or_self]
  cases hcal : b.callees with
  | none => simp [get_bloq_callee_counts, hcal]
  | some cs => simp [get_bloq_callee_counts, hcal, SurfaceCodeGatesCost.zero]

/-- C1: for every bloq no leaf-classification rule matches,
`SurfaceCodeGatesCost.compute` returns the fold that starts from the zero
cost value and, for each (callee, multiplicity) pair returned by the callee
enumerator, adds multiplicity times that callee's cost as returned by
`get_callee_cost`. -/
theorem C1_recursive_fold (b : Bloq) (g : Bloq → DetailedGateCounts)
    (h : noLeafRuleMatches b = true) :
    SurfaceCodeGatesCost.compute b g =
      (get_bloq_callee_counts b false).map
        (fun cs => cs.foldl
          (fun totals pc => totals.add (DetailedGateCounts.rmul pc.2 (g pc.1)))
          SurfaceCodeGatesCost.zero) :=
  compute_of_no_leaf_match b g h

theorem C1_recursive_fold_witness :
    SurfaceCodeGatesCost.compute foldExampleBloq tCostOracle =
      (get_bloq_callee_counts foldExampleBloq false).map
        (fun cs => cs.foldl
          (fun totals pc => totals.add (DetailedGateCounts.rmul pc.2 (tCostOracle pc.1)))
          SurfaceCodeGatesCost.zero) :=
  C1_recursive_fold foldExampleBloq tCostOracle (by decide)

/-- C2 counterexample: a bloq that classification does not recognize and
whose enumeration yields zero callees evaluates to the plain zero cost
value (`DetailedGateCounts` holds no unrecognized-unit map at all), against
the claim that such a unit folds in as an unrecognized-map entry rather
than a plain zero cost. -/
theorem C2_counterexample :
    SurfaceCodeGatesCost.compute emptyDecompBloq tCostOracle
      = some SurfaceCodeGatesCost.zero := rfl

/-- C2 (amended): the cost value has no unrecognized-unit map and the
caller enumerates strictly, so a bloq that classification does not
recognize and whose enumeration yields zero callees folds to the plain
zero cost value, while an enumeration failure propagates. -/
theorem C2_unrecognized_folds_to_zero (b : Bloq) (g : Bloq → DetailedGateCounts)
    (h : noLeafRuleMatches b = true) (hc : b.callees = some []) :
    SurfaceCodeGatesCost.compute b g = some SurfaceCodeGatesCost.zero := by
  rw [compute_of_no_leaf_match b g h]
  simp [get_bloq_callee_counts, hc]

theorem C2_unrecognized_folds_to_zero_witness :
    SurfaceCodeGatesCost.compute emptyDecompBloq tCostOracle
      = some SurfaceCodeGatesCost.zero :=
  C2_unrecognized_folds_to_zero emptyDecompBloq tCostOracle (by decide) rfl

/-- An And bloq with the uncompute variant flag set. -/
def uncomputeAndBloq : Bloq := Bloq.mk { is_and := true, and_uncompute := true } (some [])

/-- C3 counterexample: an And bloq whose uncompute flag is set classifies to
the AND cost `and_bloq = 1` with a zero measurement counter, against the
claim that it yields a pure measurement cost with no and-gate count. -/
theorem C3_counterexample :
    SurfaceCodeGatesCost.compute uncomputeAndBloq tCostOracle
        = some { and_bloq := SymbolicInt.nat 1 } ∧
    ({ and_bloq := SymbolicInt.nat 1 } : DetailedGateCounts).measurement_total_qubits = 0 ∧
    ({ and_bloq := SymbolicInt.nat 1 } : DetailedGateCounts).and_bloq ≠ 0 := by
  refine ⟨rfl, rfl, ?_⟩
  decide

/-- C3 (amended): classifying an And bloq yields the AND cost `and_bloq = 1`
whatever its uncompute flag; the special pure-measurement counting of the
uncompute variant is commented out in the source (a TODO). -/
theorem C3_and_rule_ignores_uncompute (b : Bloq) (g : Bloq → DetailedGateCounts)
    (h1 : b.attrs.is_t_like = false) (h2 : b.attrs.is_hadamard = false)
    (h3 : b.attrs.is_s_gate = false) (h4 : b.attrs.is_toffoli = false)
    (h5 : b.attrs.is_measure = false) (h6 : b.attrs.is_cnot = false)
    (h7 : b.attrs.is_and = true) :
    SurfaceCodeGatesCost.compute b g = some { and_bloq := SymbolicInt.nat 1 } := by
  rw [SurfaceCodeGatesCost.compute]
  simp [h1, h2, h3, h4, h5, h6, h7]

theorem C3_and_rule_ignores_uncompute_witness :
    SurfaceCodeGatesCost.compute uncomputeAndBloq tCostOracle
      = some { and_bloq := SymbolicInt.nat 1 } :=
  C3_and_rule_ignores_uncompute uncomputeAndBloq tCostOracle rfl rfl rfl rfl rfl rfl rfl

/-- A 2-qubit arbitrary-clifford bloq. -/
def clifford2Bloq : Bloq := Bloq.mk { is_arbitrary_clifford := true, n := 2 } (some [])

/-- C4 counterexample: a 2-qubit arbitrary-clifford bloq contributes 1, not
2, to the two-qubit-clifford counter. -/
theorem C4_counterexample :
    SurfaceCodeGatesCost.compute clifford2Bloq tCostOracle
        = some { arbitrary_2q_clifford := SymbolicInt.nat 1 } ∧
    ({ arbitrary_2q_clifford := SymbolicInt.nat 1 }
        : DetailedGateCounts).arbitrary_2q_clifford ≠ SymbolicInt.nat 2 := by
  refine ⟨rfl, ?_⟩
  decide

/-- C4 (amended): an arbitrary-clifford bloq of declared arity 1 contributes
weight 1 to the single-qubit-clifford counter, and one of arity 2 contributes
weight 1 (not 2) to the two-qubit-clifford counter. -/
theorem C4_clifford_arity_weights (b : Bloq) (g : Bloq → DetailedGateCounts)
    (h1 : b.attrs.is_t_like = false) (h2 : b.attrs.is_hadamard = false)
    (h3 : b.attrs.is_s_gate = false) (h4 : b.attrs.is_toffoli = false)
    (h5 : b.attrs.is_measure = false) (h6 : b.attrs.is_cnot = false)
    (h7 : b.attrs.is_and = false) (h8 : b.attrs.is_two_bit_cswap = false)
    (h9 : b.attrs.is_multi_target_cnot = false)
    (hac : b.attrs.is_arbitrary_clifford = true) :
    (b.attrs.n = 1 →
      SurfaceCodeGatesCost.compute b g = some { arbitrary_1q_clifford := SymbolicInt.nat 1 }) ∧
    (b.attrs.n = 2 →
      SurfaceCodeGatesCost.compute b g = some { arbitrary_2q_clifford := SymbolicInt.nat 1 }) := by
  constructor
  · intro hn
    rw [SurfaceCodeGatesCost.compute]
    simp [h1, h2, h3, h4, h5, h6, h7, h8, h9, hac, hn]
  · intro hn
    rw [SurfaceCodeGatesCost.compute]
    simp [h1, h2, h3, h4, h5, h6, h7, h8, h9, hac, hn]

theorem C4_clifford_arity_weights_witness :
    (clifford2Bloq.attrs.n = 1 →
      SurfaceCodeGatesCost.compute clifford2Bloq tCostOracle
        = some { arbitrary_1q_clifford := SymbolicInt.nat 1 }) ∧
    (clifford2Bloq.attrs.n = 2 →
      SurfaceCodeGatesCost.compute clifford2Bloq tCostOracle
        = some { arbitrary_2q_clifford := SymbolicInt.nat 1 }) :=
  C4_clifford_arity_weights clifford2Bloq tCostOracle rfl rfl rfl rfl rfl rfl rfl rfl rfl rfl

/-- A bloq satisfying both the T-like and the rotation predicates. -/
def tLikeRotationBloq : Bloq :=
  Bloq.mk { is_t_like := true, is_rotation := true } (some [])

/-- C5: the rotation rule comes after all exact-gate-type rules, so a bloq
satisfying the T-like predicate evaluates to the cost `t = 1` (rendered
"t: 1") with a zero rotation counter, even when it also satisfies the
rotation predicate. -/
theorem C5_t_like_before_rotation (b : Bloq) (g : Bloq → DetailedGateCounts)
    (h : b.attrs.is_t_like = true) :
    SurfaceCodeGatesCost.compute b g = some { t := SymbolicInt.nat 1 } ∧
    (SurfaceCodeGatesCost.compute b g).map DetailedGateCounts.rotation = some 0 ∧
    DetailedGateCounts.str { t := SymbolicInt.nat 1 } = "t: 1" := by
  have hc : SurfaceCodeGatesCost.compute b g = some { t := SymbolicInt.nat 1 } := by
    rw [SurfaceCodeGatesCost.compute]
    simp [h]
  refine ⟨hc, ?_, ?_⟩
  · rw [hc]
    rfl
  · simp [DetailedGateCounts.str, DetailedGateCounts.asdict, DetailedGateCounts.asdictAll,
      SymbolicInt.is_nonzero, SymbolicInt.nat, SymbolicInt.zero_def,
      SymbolicInt.render, Multiset.sort_zero]
    rfl

theorem C5_t_like_before_rotation_witness :
    SurfaceCodeGatesCost.compute tLikeRotationBloq tCostOracle
      = some { t := SymbolicInt.nat 1 } ∧
    (SurfaceCodeGatesCost.compute tLikeRotationBloq tCostOracle).map
      DetailedGateCounts.rotation = some 0 ∧
    DetailedGateCounts.str { t := SymbolicInt.nat 1 } = "t: 1" :=
  C5_t_like_before_rotation tLikeRotationBloq tCostOracle rfl

/-- A multi-target CNOT bloq with declared target count 12. -/
def multiTarget12Bloq : Bloq :=
  Bloq.mk { is_multi_target_cnot := true, bitsize := SymbolicInt.nat 12 } (some [])

/-- C9: a multi-target CNOT bloq classifies to the cost whose
multi-target-Pauli count field is 1 and whose total-targets field is the
declared bitsize, all other fields zero (the source spells the two fields
`multi_control_pauli_count` and `multi_control_pauli_total_targets`). -/
theorem C9_multi_target_scaled (b : Bloq) (g : Bloq → DetailedGateCounts)
    (h1 : b.attrs.is_t_like = false) (h2 : b.attrs.is_hadamard = false)
    (h3 : b.attrs.is_s_gate = false) (h4 : b.attrs.is_toffoli = false)
    (h5 : b.attrs.is_measure = false) (h6 : b.attrs.is_cnot = false)
    (h7 : b.attrs.is_and = false) (h8 : b.attrs.is_two_bit_cswap = false)
    (h9 : b.attrs.is_multi_target_cnot = true) :
    SurfaceCodeGatesCost.compute b g =
      some { multi_control_pauli_count := SymbolicInt.nat 1,
             multi_control_pauli_total_targets := b.attrs.bitsize } := by
  rw [SurfaceCodeGatesCost.compute]
  simp [h1, h2, h3, h4, h5, h6, h7, h8, h9]

theorem C9_multi_target_scaled_witness :
    SurfaceCodeGatesCost.compute multiTarget12Bloq tCostOracle =
      some { multi_control_pauli_count := SymbolicInt.nat 1,
             multi_control_pauli_total_targets := SymbolicInt.nat 12 } :=
  C9_multi_target_scaled multiTarget12Bloq tCostOracle rfl rfl rfl rfl rfl rfl rfl rfl rfl

/-- A 3-qubit arbitrary-clifford bloq decomposing into five T gates. -/
def clifford3Bloq : Bloq :=
  Bloq.mk { is_arbitrary_clifford := true, n := 3 } (some [(tGateBloq, 5)])

/-- C10: an arbitrary-clifford bloq whose arity is neither 1 nor 2 is not a
classified leaf: control falls through the clifford rule and the remaining
leaf rules it does not match to the recursive case, so its cost is the fold
over its enumerated callees. -/
theorem C10_clifford_arity_fallthrough (b : Bloq) (g : Bloq → DetailedGateCounts)
    (hac : b.attrs.is_arbitrary_clifford = true)
    (hn1 : b.attrs.n ≠ 1) (hn2 : b.attrs.n ≠ 2)
    (h1 : b.attrs.is_t_like = false) (h2 : b.attrs.is_hadamard = false)
    (h3 : b.attrs.is_s_gate = false) (h4 : b.attrs.is_toffoli = false)
    (h5 : b.attrs.is_measure = false) (h6 : b.attrs.is_cnot = false)
    (h7 : b.attrs.is_and = false) (h8 : b.attrs.is_two_bit_cswap = false)
    (h9 : b.attrs.is_multi_target_cnot = false)
    (h10 : b.attrs.is_state_or_effect = false) (h11 : b.attrs.is_bookkeeping = false)
    (h12 : b.attrs.is_global_phase = false) (h13 : b.attrs.is_identity = false)
    (h14 : b.attrs.is_rotation = false) :
    SurfaceCodeGatesCost.compute b g =
      (get_bloq_callee_counts b false).map
        (fun cs => cs.foldl
          (fun totals pc => totals.add (DetailedGateCounts.rmul pc.2 (g pc.1)))
          SurfaceCodeGatesCost.zero) := by
  apply compute_of_no_leaf_match
  simp [noLeafRuleMatches, h1, h2, h3, h4, h5, h6, h7, h8, h9, h10, h11, h12, h13, h14,
    hac, hn1, hn2]

theorem C10_clifford_arity_fallthrough_witness :
    SurfaceCodeGatesCost.compute clifford3Bloq tCostOracle =
      (get_bloq_callee_counts clifford3Bloq false).map
        (fun cs => cs.foldl
          (fun totals pc => totals.add (DetailedGateCounts.rmul pc.2 (tCostOracle pc.1)))
          SurfaceCodeGatesCost.zero) :=
  C10_clifford_arity_fallthrough clifford3Bloq tCostOracle rfl (by decide) (by decide)
    rfl rfl rfl rfl rfl rfl rfl rfl rfl rfl rfl rfl rfl rfl

theorem DetailedGateCounts.addComm (a b : DetailedGateCounts) : a.add b = b.add a := by
  simp only [DetailedGateCounts.add, DetailedGateCounts.mk.injEq]
  refine ⟨?_, ?_, ?_, ?_, ?_, ?_, ?_, ?_, ?_, ?_, ?_, ?_, ?_⟩ <;> exact add_comm ..

theorem DetailedGateCounts.addAssoc (a b c : DetailedGateCounts) :
    (a.add b).add c = a.add (b.add c) := by
  simp only [DetailedGateCounts.add, DetailedGateCounts.mk.injEq]
  refine ⟨?_, ?_, ?_, ?_, ?_, ?_, ?_, ?_, ?_, ?_, ?_, ?_, ?_⟩ <;> exact add_assoc ..

theorem DetailedGateCounts.addZero (a : DetailedGateCounts) :
    a.add SurfaceCodeGatesCost.zero = a := by
  obtain ⟨f1, f2, f3, f4, f5, f6, f7, f8, f9, f10, f11, f12, f13⟩ := a
  simp only [DetailedGateCounts.add, SurfaceCodeGatesCost.zero, DetailedGateCounts.mk.injEq]
  refine ⟨?_, ?_, ?_, ?_, ?_, ?_, ?_, ?_, ?_, ?_, ?_, ?_, ?_⟩ <;> exact add_zero _

theorem DetailedGateCounts.zeroAdd (a : DetailedGateCounts) :
    SurfaceCodeGatesCost.zero.add a = a := by
  obtain ⟨f1, f2, f3, f4, f5, f6, f7, f8, f9, f10, f11, f12, f13⟩ := a
  simp only [DetailedGateCounts.add, SurfaceCodeGatesCost.zero, DetailedGateCounts.mk.injEq]
  refine ⟨?_, ?_, ?_, ?_, ?_, ?_, ?_, ?_, ?_, ?_, ?_, ?_, ?_⟩ <;> exact zero_add _

theorem DetailedGateCounts.mulZero (v : DetailedGateCounts) :
    v.mul 0 = SurfaceCodeGatesCost.zero := by
  simp only [DetailedGateCounts.mul, SurfaceCodeGatesCost.zero, SymbolicInt.scaleZero]

theorem DetailedGateCounts.mulOne (v : DetailedGateCounts) : v.mul 1 = v := by
  obtain ⟨f1, f2, f3, f4, f5, f6, f7, f8, f9, f10, f11, f12, f13⟩ := v
  simp only [DetailedGateCounts.mul, SymbolicInt.scaleOne]

theorem DetailedGateCounts.mulAddScalar (v : DetailedGateCounts) (k1 k2 : Nat) :
    v.mul (k1 + k2) = (v.mul k1).add (v.mul k2) := by
  simp only [DetailedGateCounts.mul, DetailedGateCounts.add, DetailedGateCounts.mk.injEq]
  refine ⟨?_, ?_, ?_, ?_, ?_, ?_, ?_, ?_, ?_, ?_, ?_, ?_, ?_⟩ <;>
    exact SymbolicInt.scaleAddScalar ..

/-- C6: the cost-value algebra contract: `add` is commutative and
associative with `zero()` as identity; scaling satisfies `scale(v,0) =
zero()`, `scale(v,1) = v` and `scale(v,k1+k2) = add(scale(v,k1),
scale(v,k2))` for all non-negative scalars; and multiplying by a scalar on
either side (`__mul__` or `__rmul__`) gives the same result. -/
theorem C6_cost_value_algebra :
    (∀ a b : DetailedGateCounts, a.add b = b.add a) ∧
    (∀ a b c : DetailedGateCounts, (a.add b).add c = a.add (b.add c)) ∧
    (∀ a : DetailedGateCounts,
      a.add SurfaceCodeGatesCost.zero = a ∧ SurfaceCodeGatesCost.zero.add a = a) ∧
    (∀ v : DetailedGateCounts, v.mul 0 = SurfaceCodeGatesCost.zero) ∧
    (∀ v : DetailedGateCounts, v.mul 1 = v) ∧
    (∀ (v : DetailedGateCounts) (k1 k2 : Nat),
      v.mul (k1 + k2) = (v.mul k1).add (v.mul k2)) ∧
    (∀ (v : DetailedGateCounts) (k : Nat), DetailedGateCounts.rmul k v = v.mul k) :=
  ⟨DetailedGateCounts.addComm, DetailedGateCounts.addAssoc,
   fun a => ⟨DetailedGateCounts.addZero a, DetailedGateCounts.zeroAdd a⟩,
   DetailedGateCounts.mulZero, DetailedGateCounts.mulOne,
   DetailedGateCounts.mulAddScalar, fun _ _ => rfl⟩

/-- C7: `__str__` lists only the non-zero fields as "name: value" pairs,
comma-joined, in field declaration order, and returns "-" when every field
is zero; a field holding a symbolic expression equal to the literal zero is
treated as zero and omitted, so the value with `t` a symbol `n` and
`toffoli` zero renders exactly as "t: n". -/
theorem C7_str_rendering :
    (∀ g : DetailedGateCounts,
      g.str =
        (if ((g.asdictAll.filter (fun kv => kv.2.is_nonzero)).map
              (fun kv => kv.1 ++ ": " ++ kv.2.render)).isEmpty
         then "-"
         else ", ".intercalate ((g.asdictAll.filter (fun kv => kv.2.is_nonzero)).map
              (fun kv => kv.1 ++ ": " ++ kv.2.render)))) ∧
    (∀ g : DetailedGateCounts,
      g.asdictAll.all (fun kv => !kv.2.is_nonzero) = true → g.str = "-") ∧
    DetailedGateCounts.str { t := SymbolicInt.sym "n", toffoli := SymbolicInt.nat 0 }
      = "t: n" ∧
    DetailedGateCounts.str {} = "-" ∧
    DetailedGateCounts.str { t := SymbolicInt.nat 100, toffoli := SymbolicInt.nat 13 }
      = "t: 100, toffoli: 13" := by
  refine ⟨?_, ?_, ?_, ?_, ?_⟩
  · intro g
    rw [DetailedGateCounts.str, DetailedGateCounts.asdict]
    rcases Bool.eq_false_or_eq_true
        ((g.asdictAll.filter (fun kv => kv.2.is_nonzero)).map
          (fun kv => kv.1 ++ ": " ++ kv.2.render)).isEmpty with he | he <;>
      simp [he]
  · intro g hall
    have hnil : g.asdictAll.filter (fun kv => kv.2.is_nonzero) = [] := by
      rw [List.filter_eq_nil_iff]
      intro kv hkv
      have := List.all_eq_true.mp hall kv hkv
      simp only [Bool.not_eq_true'] at this
      simp [this]
    rw [DetailedGateCounts.str, DetailedGateCounts.asdict, hnil]
    rfl
  · simp [DetailedGateCounts.str, DetailedGateCounts.asdict, DetailedGateCounts.asdictAll,
      SymbolicInt.is_nonzero, SymbolicInt.sym, SymbolicInt.nat, SymbolicInt.zero_def,
      SymbolicInt.render, Multiset.sort_singleton]
    rfl
  · simp [DetailedGateCounts.str, DetailedGateCounts.asdict, DetailedGateCounts.asdictAll,
      SymbolicInt.is_nonzero, SymbolicInt.zero_def]
  · simp [DetailedGateCounts.str, DetailedGateCounts.asdict, DetailedGateCounts.asdictAll,
      SymbolicInt.is_nonzero, SymbolicInt.nat, SymbolicInt.zero_def,
      SymbolicInt.render, Multiset.sort_zero]
    rfl

/-- C8: `__add__` raises a type error exactly when the right operand is not
a `DetailedGateCounts`, and on two `DetailedGateCounts` operands returns
the fieldwise sum (both operands are immutable values, so neither is
changed). -/
theorem C8_add_rejects_foreign_operands :
    (∀ (a : DetailedGateCounts) (o : PyObj),
      (∃ e, a.pyAdd o = Except.error e) ↔ ∀ g, o ≠ PyObj.gc g) ∧
    (∀ a g : DetailedGateCounts, a.pyAdd (PyObj.gc g) = Except.ok (a.add g)) ∧
    (∀ a g : DetailedGateCounts,
      (a.add g).t = a.t + g.t ∧ (a.add g).toffoli = a.toffoli + g.toffoli ∧
      (a.add g).cswap = a.cswap + g.cswap ∧ (a.add g).and_bloq = a.and_bloq + g.and_bloq ∧
      (a.add g).rotation = a.rotation + g.rotation ∧
      (a.add g).hadamard = a.hadamard + g.hadamard ∧
      (a.add g).s_gate = a.s_gate + g.s_gate ∧ (a.add g).cnot = a.cnot + g.cnot ∧
      (a.add g).arbitrary_1q_clifford = a.arbitrary_1q_clifford + g.arbitrary_1q_clifford ∧
      (a.add g).arbitrary_2q_clifford = a.arbitrary_2q_clifford + g.arbitrary_2q_clifford ∧
      (a.add g).multi_control_pauli_count
        = a.multi_control_pauli_count + g.multi_control_pauli_count ∧
      (a.add g).multi_control_pauli_total_targets
        = a.multi_control_pauli_total_targets + g.multi_control_pauli_total_targets ∧
      (a.add g).measurement_total_qubits
        = a.measurement_total_qubits + g.measurement_total_qubits) := by
  refine ⟨?_, fun a g => rfl, fun a g => ⟨rfl, rfl, rfl, rfl, rfl, rfl, rfl, rfl, rfl,
    rfl, rfl, rfl, rfl⟩⟩
  intro a o
  cases o with
  | gc g =>
    constructor
    · rintro ⟨e, he⟩
      exact absurd he (by simp [DetailedGateCounts.pyAdd])
    · intro hall
      exact absurd rfl (hall g)
  | raw s =>
    constructor
    · intro _ g hgc
      exact PyObj.noConfusion hgc
    · intro _
      exact ⟨"Can only add other DetailedGateCounts objects", rfl⟩

end Qualtran
